import Mathlib

/-!
Shallow embedding of the power-spectrum PSF model of the mdetsims
repository (the file ps_psf.py and the PSF-related parts of sim_utils.py),
together with theorems checking the specification claims about it.

Python floats are modelled as real numbers; the numpy RandomState is
modelled as an infinite stream of draws with a cursor; fallible code paths
return Except values carrying the Python exception class.
-/

namespace Mdetsims

/-- Python exception classes relevant to the embedded code paths. -/
inductive PyError where
  | valueError (msg : String)
  | typeError (msg : String)
  deriving DecidableEq, Repr

/-- Parameter names of the PowerSpectrumPSF constructor (after self), from
ps_psf.py line 6: def __init__(self, rng, im_width, scale, trunc=10). -/
def powerSpectrumPSF_param_names : List String :=
  ["rng", "im_width", "scale", "trunc"]

/-- The parameters of the PowerSpectrumPSF constructor without a default. -/
def powerSpectrumPSF_required_names : List String :=
  ["rng", "im_width", "scale"]

/-- Python keyword-argument binding for a call made with keyword arguments
only: the call raises TypeError when a keyword does not name a declared
parameter, or when a parameter without a default is not supplied. -/
def bindKeywordCall (params required kwargs : List String) :
    Except PyError Unit :=
  match kwargs.find? (fun k => !(params.contains k)) with
  | some k =>
      .error (.typeError ("__init__() got an unexpected keyword argument " ++ k))
  | none =>
      if required.all (fun r => kwargs.contains r) then .ok ()
      else .error (.typeError "__init__() missing a required argument")

/-- Python a or b applied to an optional natural number a: None and 0 are
falsy, any other value is truthy. This is sim_utils.py line 97,
self.n_coadd_psf = n_coadd_psf or n_coadd. -/
def pyOrNat : Option Nat → Nat → Nat
  | none, b => b
  | some a, b => if a = 0 then b else a

/-- Analytic surface-brightness profiles: a closed syntax of the profile
constructors and transforms the embedded code builds. -/
inductive Profile where
  | gaussian (fwhm : ℝ)
  | moffat (beta fwhm : ℝ)
  | sersic (n half_light_radius : ℝ)
  | withFlux (flux : ℝ) (p : Profile)
  | cosmosParametric
  | realFile (fname : String) (x y : ℝ)
  | shear (g1 g2 : ℝ) (p : Profile)
  | magnify (mu : ℝ) (p : Profile)
  | sum (ps : List Profile)

/-- Modelled from the spec: the lens operation of the external rendering
library (galsim GSObject.lens), which section 4.4 of the spec fixes as
applying the shear (g1, g2) first and the magnification mu second. -/
def Profile.lens (p : Profile) (g1 g2 mu : ℝ) : Profile :=
  Profile.magnify mu (Profile.shear g1 g2 p)

/-- The two power-spectrum channels handed to galsim.PowerSpectrum in the
PowerSpectrumPSF constructor. -/
structure PowerSpectrumChannels where
  e_power : ℝ → ℝ
  b_power : ℝ → ℝ

/-- The radial power spectrum _pf defined inside the PowerSpectrumPSF
constructor: (k**2 + (1./180)**2)**(-11./6.) * np.exp(-(k*trunc)**2). -/
noncomputable def _pf (trunc k : ℝ) : ℝ :=
  (k ^ 2 + (1 / 180) ^ 2) ^ ((-11 : ℝ) / 6) * Real.exp (-(k * trunc) ^ 2)

/-- The power-spectrum form stated by the spec,
P(k) = (k^2 + (1/L0)^2)^(-11/6) * exp(-(k*trunc)^2), written from the
words of the spec for comparison with the _pf of the code. -/
noncomputable def spec_power_spectrum (L0 trunc k : ℝ) : ℝ :=
  (k ^ 2 + (1 / L0) ^ 2) ^ ((-11 : ℝ) / 6) * Real.exp (-(k * trunc) ^ 2)

/-- The galsim.PowerSpectrum constructed in the PowerSpectrumPSF
constructor: both the E-mode and the B-mode channel are _pf. -/
noncomputable def init_power_spectrum (trunc : ℝ) : PowerSpectrumChannels :=
  ⟨_pf trunc, _pf trunc⟩

/-- The fixed grid size ng = 64 from the PowerSpectrumPSF constructor. -/
def ps_ngrid : Nat := 64

/-- The grid spacing gs = max(im_width * scale / ng, 1) from the
PowerSpectrumPSF constructor. -/
noncomputable def ps_grid_spacing (im_width : ℕ) (scale : ℝ) : ℝ :=
  max ((im_width : ℝ) * scale / (ps_ngrid : ℝ)) 1

/-- Modelled from the spec: grid construction in the external field builder
(galsim buildGrid, not part of this repository) fails with a
ConfigurationError exactly when the grid parameters are degenerate (zero
grid points or non-positive spacing); otherwise it succeeds. -/
noncomputable def buildGridCheck (ngrid : ℕ) (spacing : ℝ) :
    Except String Unit :=
  if ngrid = 0 ∨ spacing ≤ 0 then .error "ConfigurationError" else .ok ()

/-- A numpy RandomState, modelled as an infinite sequence of draws and a
cursor; each RNG call reads the draw at the cursor and advances it. -/
structure RNGState where
  seq : ℕ → ℝ
  pos : ℕ

/-- Read one draw and advance the stream. -/
def RNGState.next (s : RNGState) : ℝ × RNGState :=
  (s.seq s.pos, ⟨s.seq, s.pos + 1⟩)

/-- The state of the random shear/convergence grid built by buildGrid: the
truncation, grid geometry, target variance, and the seed drawn for it by
self._rng.randint(1, 2**30), which fully determine the realized field. -/
structure GridField where
  trunc : ℝ
  spacing : ℝ
  ngrid : ℕ
  variance : ℝ
  seed : ℝ

/-- The state of a PowerSpectrumPSF instance after its constructor ran. -/
structure PowerSpectrumPSF where
  x_scale : ℝ
  im_cen : ℝ
  scale : ℝ
  field : GridField
  fwhm_central : ℝ
  fwhm_x : ℝ
  fwhm_y : ℝ
  fwhm_xx : ℝ
  fwhm_xy : ℝ
  fwhm_yy : ℝ

/-- The helper _getlogmnsigma(mean, sigma) from the PowerSpectrumPSF
constructor, returning (logmean, logsigma). -/
noncomputable def _getlogmnsigma (mean sigma : ℝ) : ℝ × ℝ :=
  (Real.log mean - 0.5 * Real.log (1 + sigma ^ 2 / mean ^ 2),
   Real.sqrt (Real.log (1 + sigma ^ 2 / mean ^ 2)))

/-- The body of the PowerSpectrumPSF constructor: consumes one draw for the
grid seed and six draws for the FWHM polynomial coefficients, and returns
the constructed instance together with the advanced RNG. -/
noncomputable def PowerSpectrumPSF.construct (rng : RNGState) (im_width : ℕ)
    (scale trunc : ℝ) : PowerSpectrumPSF × RNGState :=
  let x_scale : ℝ := 2 / (im_width : ℝ) / scale
  let im_cen : ℝ := ((im_width : ℝ) - 1) / 2
  let s0 := rng.next
  let field : GridField :=
    ⟨trunc, ps_grid_spacing im_width scale, ps_ngrid, 0.01 ^ 2, s0.1⟩
  let lmls := _getlogmnsigma 0.9 0.1
  let s1 := s0.2.next
  let fwhm_central := Real.exp (s1.1 * lmls.2 + lmls.1)
  let ls : ℝ := 0.001
  let lm : ℝ := 0.02 / 5 * 10 / trunc
  let s2 := s1.2.next
  let s3 := s2.2.next
  let s4 := s3.2.next
  let s5 := s4.2.next
  let s6 := s5.2.next
  (⟨x_scale, im_cen, scale, field, fwhm_central,
    s2.1 * ls + lm, s3.1 * ls + lm,
    s4.1 * ls + lm / 10, s5.1 * ls + lm / 10, s6.1 * ls + lm / 10⟩,
   s6.2)

/-- The FWHM polynomial evaluated inside _get_atm: the offsets
xs = x - 1 - im_cen and ys = y - 1 - im_cen are rescaled by x_scale and fed
to the quadratic in the stored coefficients. -/
noncomputable def PowerSpectrumPSF.fwhm_at (p : PowerSpectrumPSF)
    (x y : ℝ) : ℝ :=
  let xs := (x - 1 - p.im_cen) * p.x_scale
  let ys := (y - 1 - p.im_cen) * p.x_scale
  p.fwhm_central + xs * p.fwhm_x + ys * p.fwhm_y +
    xs * xs * p.fwhm_xx + xs * ys * p.fwhm_xy + ys * ys * p.fwhm_yy

/-- The FWHM polynomial as the words of the claim state it: offsets of
(x, y) itself from the image center im_cen = (dim-1)/2, scaled by the
stored x_scale = 2/(dim*scale). -/
noncomputable def spec_fwhm_at (p : PowerSpectrumPSF) (x y : ℝ) : ℝ :=
  let xs := (x - p.im_cen) * p.x_scale
  let ys := (y - p.im_cen) * p.x_scale
  p.fwhm_central + xs * p.fwhm_x + ys * p.fwhm_y +
    xs * xs * p.fwhm_xx + xs * ys * p.fwhm_xy + ys * ys * p.fwhm_yy

/-- The method _get_atm(x, y): queries the grid field for shear and
magnification at the shifted position, evaluates the FWHM polynomial, and
returns the lensed Moffat profile with beta = 2.5. The interpolators
shearF and magF stand for the external getShear and getMagnification,
deterministic functions of the built grid and the queried position. -/
noncomputable def PowerSpectrumPSF._get_atm
    (shearF : GridField → ℝ × ℝ → ℝ × ℝ) (magF : GridField → ℝ × ℝ → ℝ)
    (p : PowerSpectrumPSF) (x y : ℝ) : Profile :=
  let xs := x - 1 - p.im_cen
  let ys := y - 1 - p.im_cen
  let g := shearF p.field (xs, ys)
  let mu := magF p.field (xs, ys)
  Profile.lens (Profile.moffat 2.5 (p.fwhm_at x y)) g.1 g.2 mu

/-- The method getPSF(pos), which forwards pos.x and pos.y to _get_atm. -/
noncomputable def PowerSpectrumPSF.getPSF
    (shearF : GridField → ℝ × ℝ → ℝ × ℝ) (magF : GridField → ℝ × ℝ → ℝ)
    (p : PowerSpectrumPSF) (pos : ℝ × ℝ) : Profile :=
  PowerSpectrumPSF._get_atm shearF magF p pos.1 pos.2

/-- Keyword arguments of the PowerSpectrumPSF(...) call inside
Sim._stack_ps_psfs under the default psf_kws=None (so **kwargs is empty):
rng, im_width, buff=75, scale. -/
def stack_ps_call_kwargs : List String :=
  ["rng", "im_width", "buff", "scale"]

/-- The list comprehension in Sim._stack_ps_psfs building n realizations.
Each iteration first binds the keyword arguments of the constructor call,
raising TypeError on an unexpected keyword, and then runs the constructor
with the default trunc = 10. -/
noncomputable def construct_ps_list (n : ℕ) (rng : RNGState) (im_width : ℕ)
    (scale : ℝ) : Except PyError (List PowerSpectrumPSF × RNGState) :=
  match n with
  | 0 => .ok ([], rng)
  | Nat.succ m =>
    match bindKeywordCall powerSpectrumPSF_param_names
        powerSpectrumPSF_required_names stack_ps_call_kwargs with
    | .error e => .error e
    | .ok _ =>
      let pr := PowerSpectrumPSF.construct rng im_width scale 10
      match construct_ps_list m pr.2 im_width scale with
      | .error e => .error e
      | .ok pair => .ok (pr.1 :: pair.1, pair.2)

/-- Sim._stack_ps_psfs(x=x, y=y) restricted to the profile it builds: when
the _psfs attribute is not yet set, construct the list of n realizations
(n is the resolved n_coadd_psf); in every case return the stored list, the
advanced RNG, and the galsim.Sum of the member profiles at the queried
position. -/
noncomputable def stack_ps_psfs (shearF : GridField → ℝ × ℝ → ℝ × ℝ)
    (magF : GridField → ℝ × ℝ → ℝ) (n : ℕ) (rng : RNGState) (im_width : ℕ)
    (scale : ℝ) (psfs : Option (List PowerSpectrumPSF)) (x y : ℝ) :
    Except PyError (List PowerSpectrumPSF × RNGState × Profile) :=
  match psfs with
  | some ps =>
      .ok (ps, rng, Profile.sum (ps.map (fun p =>
        PowerSpectrumPSF._get_atm shearF magF p x y)))
  | none =>
    match construct_ps_list n rng im_width scale with
    | .error e => .error e
    | .ok pair =>
        .ok (pair.1, pair.2, Profile.sum (pair.1.map (fun p =>
          PowerSpectrumPSF._get_atm shearF magF p x y)))

/-- The psf_kws dictionary restricted to the key the embedded branches
read: the filenames list forwarded to _stack_real_psfs. The default
psf_kws=None corresponds to filenames = none (kws is the empty dict). -/
structure PsfKws where
  filenames : Option (List String)

/-- Modelled from the documented behavior of the external numpy
RandomState.choice with replace=False: it raises ValueError when the
requested sample size exceeds the population, and otherwise returns the
sample produced by the external sampler chooseF together with the advanced
RNG. -/
def rng_choice_no_replace
    (chooseF : RNGState → List String → ℕ → List String × RNGState)
    (rng : RNGState) (population : List String) (size : ℕ) :
    Except PyError (List String × RNGState) :=
  if population.length < size then
    .error (.valueError
      "Cannot take a larger sample than population when replace is False")
  else .ok (chooseF rng population size)

/-- Modelled from the spec: a PSF read from a file by the RealPSF module
(code of this repository outside src/, described by the spec and the Sim
docstring as a PSF drawn from files of an atmosphere and optics model);
identified here by the file name it was loaded from. -/
structure RealPSF where
  fname : String

/-- The getPSF method of a RealPSF at a queried position, modelled from the
spec as a profile determined by the backing file and the position. -/
def RealPSF.getPSF (r : RealPSF) (x y : ℝ) : Profile :=
  Profile.realFile r.fname x y

/-- Sim._stack_real_psfs(x=x, y=y, filenames=filenames): when the _psfs
attribute is not yet set, draw n_coadd_psf distinct file names by
rng.choice(filenames, size=n_coadd_psf, replace=False) - raising the
documented ValueError when the population is smaller than the requested
size - and load one RealPSF per drawn name; in every case return the
stored list, the RNG, and the galsim.Sum of the member profiles at the
queried position. -/
def stack_real_psfs
    (chooseF : RNGState → List String → ℕ → List String × RNGState) (n : ℕ)
    (rng : RNGState) (filenames : List String)
    (psfs : Option (List RealPSF)) (x y : ℝ) :
    Except PyError (List RealPSF × RNGState × Profile) :=
  match psfs with
  | some ps =>
      .ok (ps, rng, Profile.sum (ps.map (fun p => p.getPSF x y)))
  | none =>
    match rng_choice_no_replace chooseF rng filenames n with
    | .error e => .error e
    | .ok pair =>
        .ok (pair.1.map RealPSF.mk, pair.2,
          Profile.sum ((pair.1.map RealPSF.mk).map (fun p => p.getPSF x y)))

/-- Sim._render_psf_image restricted to PSF selection: the if/elif chain on
psf_type from sim_utils.py. The gauss branch builds galsim.Gaussian with
fwhm 0.9; the ps branch calls _stack_ps_psfs (whose constructor keyword bug
is embedded above, at the default empty psf_kws); the real_psf branch calls
_stack_real_psfs(x=x, y=y, **kws), which raises TypeError when psf_kws
supplies no filenames (a required keyword-only argument of that method) and
otherwise runs the real-PSF stacker; any other name raises ValueError
before any profile is built. The second component of a successful result is
the rendering method string. -/
noncomputable def render_psf_image (shearF : GridField → ℝ × ℝ → ℝ × ℝ)
    (magF : GridField → ℝ × ℝ → ℝ)
    (chooseF : RNGState → List String → ℕ → List String × RNGState)
    (psf_type : String) (n : ℕ) (rng : RNGState) (im_width : ℕ) (scale : ℝ)
    (psfs : Option (List PowerSpectrumPSF))
    (realPsfs : Option (List RealPSF)) (kws : PsfKws) (x y : ℝ) :
    Except PyError (Profile × String) :=
  if psf_type = "gauss" then .ok (Profile.gaussian 0.9, "auto")
  else if psf_type = "ps" then
    match stack_ps_psfs shearF magF n rng im_width scale psfs x y with
    | .error e => .error e
    | .ok trip => .ok (trip.2.2, "auto")
  else if psf_type = "real_psf" then
    match kws.filenames with
    | none =>
        .error (.typeError
          "_stack_real_psfs() missing 1 required keyword-only argument filenames")
    | some fnames =>
      match stack_real_psfs chooseF n rng fnames realPsfs x y with
      | .error e => .error e
      | .ok trip => .ok (trip.2.2, "no_pixel")
  else .error (.valueError ("psf_type \"" ++ psf_type ++ "\" not valid!"))

/-- The galaxy selection in Sim._get_band_objects: the if/elif chain on
gal_type. The exp branch builds galsim.Sersic with n=1, half light radius
0.5 and flux 10**(0.4*(30-18)); the ground_galsim_parametric branch draws
from the external COSMOS catalog (modelled from the spec as a parametric
profile marker); any other name raises ValueError before any galaxy is
built. -/
noncomputable def get_band_gal (gal_type : String) : Except PyError Profile :=
  if gal_type = "exp" then
    .ok (Profile.withFlux (10 ^ ((0.4 : ℝ) * (30 - 18)))
      (Profile.sersic 1 0.5))
  else if gal_type = "ground_galsim_parametric" then
    .ok Profile.cosmosParametric
  else .error (.valueError ("gal_type \"" ++ gal_type ++ "\" not valid!"))

/-- Evaluation of the constructor on an explicit draw stream: the instance
is built from exactly the seven draws at positions pos .. pos+6. -/
theorem construct_fst_eval (s : ℕ → ℝ) (pos : ℕ) (im_width : ℕ)
    (scale trunc : ℝ) :
    (PowerSpectrumPSF.construct ⟨s, pos⟩ im_width scale trunc).1 =
      ⟨2 / (im_width : ℝ) / scale, ((im_width : ℝ) - 1) / 2, scale,
       ⟨trunc, ps_grid_spacing im_width scale, ps_ngrid, 0.01 ^ 2, s pos⟩,
       Real.exp (s (pos + 1) * (_getlogmnsigma 0.9 0.1).2 +
         (_getlogmnsigma 0.9 0.1).1),
       s (pos + 2) * 0.001 + 0.02 / 5 * 10 / trunc,
       s (pos + 3) * 0.001 + 0.02 / 5 * 10 / trunc,
       s (pos + 4) * 0.001 + 0.02 / 5 * 10 / trunc / 10,
       s (pos + 5) * 0.001 + 0.02 / 5 * 10 / trunc / 10,
       s (pos + 6) * 0.001 + 0.02 / 5 * 10 / trunc / 10⟩ := rfl

/-- C3: the power spectrum used for both the E-mode and the B-mode channel
of the random field is exactly
P(k) = (k^2 + (1/180)^2)^(-11/6) * exp(-(k*trunc)^2), the form the spec
states with L0 = 180, for every wavenumber k and truncation scale. -/
theorem power_spectrum_formula (trunc k : ℝ) :
    (init_power_spectrum trunc).e_power k = spec_power_spectrum 180 trunc k ∧
    (init_power_spectrum trunc).b_power k = spec_power_spectrum 180 trunc k :=
  ⟨rfl, rfl⟩

/-- C5: the constant FWHM coefficient drawn by the constructor equals
exp(z*logsigma + logmean) for the drawn z, with
logmean = log 0.9 - 0.5*log(1 + 0.1^2/0.9^2) and
logsigma = sqrt(log(1 + 0.1^2/0.9^2)), and it is strictly positive for
every RNG draw. -/
theorem fwhm_central_lognormal_positive (rng : RNGState) (im_width : ℕ)
    (scale trunc : ℝ) :
    (PowerSpectrumPSF.construct rng im_width scale trunc).1.fwhm_central =
      Real.exp (rng.seq (rng.pos + 1) *
          Real.sqrt (Real.log (1 + 0.1 ^ 2 / 0.9 ^ 2)) +
        (Real.log 0.9 - 0.5 * Real.log (1 + 0.1 ^ 2 / 0.9 ^ 2))) ∧
    0 < (PowerSpectrumPSF.construct rng im_width scale trunc).1.fwhm_central :=
  ⟨rfl, Real.exp_pos _⟩

/-- C9: the constructor reads exactly the first seven RNG draws (one grid
seed, six coefficient draws); two constructions whose streams agree on
those draws produce identical instances, and hence identical profiles at
every position for arbitrary field interpolators. -/
theorem construct_deterministic (s1 s2 : ℕ → ℝ) (pos : ℕ) (im_width : ℕ)
    (scale trunc : ℝ)
    (h : ∀ i, i < 7 → s1 (pos + i) = s2 (pos + i)) :
    (PowerSpectrumPSF.construct ⟨s1, pos⟩ im_width scale trunc).1 =
      (PowerSpectrumPSF.construct ⟨s2, pos⟩ im_width scale trunc).1 ∧
    ∀ shearF magF x y,
      PowerSpectrumPSF._get_atm shearF magF
          (PowerSpectrumPSF.construct ⟨s1, pos⟩ im_width scale trunc).1 x y =
        PowerSpectrumPSF._get_atm shearF magF
          (PowerSpectrumPSF.construct ⟨s2, pos⟩ im_width scale trunc).1 x y := by
  have h0 : s1 pos = s2 pos := by simpa using h 0 (by norm_num)
  have h1 : s1 (pos + 1) = s2 (pos + 1) := h 1 (by norm_num)
  have h2 : s1 (pos + 2) = s2 (pos + 2) := h 2 (by norm_num)
  have h3 : s1 (pos + 3) = s2 (pos + 3) := h 3 (by norm_num)
  have h4 : s1 (pos + 4) = s2 (pos + 4) := h 4 (by norm_num)
  have h5 : s1 (pos + 5) = s2 (pos + 5) := h 5 (by norm_num)
  have h6 : s1 (pos + 6) = s2 (pos + 6) := h 6 (by norm_num)
  have hmain :
      (PowerSpectrumPSF.construct ⟨s1, pos⟩ im_width scale trunc).1 =
        (PowerSpectrumPSF.construct ⟨s2, pos⟩ im_width scale trunc).1 := by
    rw [construct_fst_eval, construct_fst_eval, h0, h1, h2, h3, h4, h5, h6]
  exact ⟨hmain, fun shearF magF x y => by rw [hmain]⟩

/-- Witness for C9: two concrete draw streams that agree on the first seven
draws and differ from the eighth on yield identical instances. -/
theorem construct_deterministic_witness :
    (PowerSpectrumPSF.construct ⟨fun _ => 0, 0⟩ 225 (1 / 4) 10).1 =
      (PowerSpectrumPSF.construct
        ⟨fun i => if 7 ≤ i then 1 else 0, 0⟩ 225 (1 / 4) 10).1 :=
  (construct_deterministic (fun _ => 0) (fun i => if 7 ≤ i then 1 else 0)
    0 225 (1 / 4) 10
    (fun i hi => by
      have hlt : ¬ 7 ≤ i := by omega
      simp [hlt])).1

/-- C2 counterexample: for the realization constructed from the all-zeros
draw stream with dim = 3, scale = 1, the FWHM the code evaluates at the
position (2, 2) differs from the formula of the claim, in which the offsets
are taken from the image center (dim-1)/2 without the extra shift by one. -/
theorem fwhm_center_convention_cex :
    PowerSpectrumPSF.fwhm_at
        (PowerSpectrumPSF.construct ⟨fun _ => 0, 0⟩ 3 1 10).1 2 2 ≠
      spec_fwhm_at
        (PowerSpectrumPSF.construct ⟨fun _ => 0, 0⟩ 3 1 10).1 2 2 := by
  rw [construct_fst_eval]
  simp only [PowerSpectrumPSF.fwhm_at, spec_fwhm_at]
  intro hcontra
  have hz := sub_eq_zero.mpr hcontra
  ring_nf at hz
  norm_num at hz

/-- C2 amended: for every realization and every position, the FWHM the code
uses at (x, y) equals the polynomial of the claim with the offsets taken of
(x - 1, y - 1) from the image center (dim-1)/2 — equivalently, of (x, y)
from (dim+1)/2 — scaled by 2/(dim*scale). -/
theorem fwhm_polynomial_shifted_offsets (p : PowerSpectrumPSF) (x y : ℝ) :
    PowerSpectrumPSF.fwhm_at p x y = spec_fwhm_at p (x - 1) (y - 1) := by
  simp only [PowerSpectrumPSF.fwhm_at, spec_fwhm_at]

/-- C4: for every position, getPSF returns a Moffat profile with beta fixed
at 2.5 and the FWHM of the size model at that position, to which the
lensing transform at the interpolated shear and magnification of the same
position is applied shear first and magnification second. -/
theorem getPSF_moffat_lens_order (shearF : GridField → ℝ × ℝ → ℝ × ℝ)
    (magF : GridField → ℝ × ℝ → ℝ) (p : PowerSpectrumPSF) (x y : ℝ) :
    PowerSpectrumPSF.getPSF shearF magF p (x, y) =
      Profile.magnify (magF p.field (x - 1 - p.im_cen, y - 1 - p.im_cen))
        (Profile.shear
          (shearF p.field (x - 1 - p.im_cen, y - 1 - p.im_cen)).1
          (shearF p.field (x - 1 - p.im_cen, y - 1 - p.im_cen)).2
          (Profile.moffat 2.5 (PowerSpectrumPSF.fwhm_at p x y))) := rfl

/-- C6: once the _psfs attribute is set, _stack_ps_psfs leaves the stored
realization list and the RNG unchanged and returns the sum of the profiles
of exactly the stored members at the queried position: only the queried
position affects the result. -/
theorem stack_ps_psfs_memoized_frame (shearF : GridField → ℝ × ℝ → ℝ × ℝ)
    (magF : GridField → ℝ × ℝ → ℝ) (n : ℕ) (rng : RNGState) (im_width : ℕ)
    (scale : ℝ) (ps : List PowerSpectrumPSF) (x y : ℝ) :
    stack_ps_psfs shearF magF n rng im_width scale (some ps) x y =
      .ok (ps, rng, Profile.sum (ps.map (fun p =>
        PowerSpectrumPSF._get_atm shearF magF p x y))) := rfl

/-- C1, code bug: the first psf_type ps query constructs the realization
list passing a buff=75 keyword that the PowerSpectrumPSF constructor does
not declare, so with the default n_coadd_psf = 1 the lazy construction
raises TypeError instead of returning the stacked profile. -/
theorem stack_ps_psfs_first_call_raises :
    stack_ps_psfs (fun _ _ => (0, 0)) (fun _ _ => 1) 1 ⟨fun _ => 0, 0⟩ 225
        (1 / 4) none 112 112 =
      .error (.typeError
        "__init__() got an unexpected keyword argument buff") := rfl

/-- C7: the grid parameters the constructor computes are never degenerate,
since ngrid = 64 and spacing = max(im_width*scale/64, 1) is at least 1, so
the spec ConfigurationError condition never fires and the grid build
succeeds for every configuration; and the modelled build fails exactly on
degenerate parameters. -/
theorem grid_params_nondegenerate_build_ok (im_width ngrid : ℕ)
    (scale spacing : ℝ) :
    ((∃ e, buildGridCheck ngrid spacing = .error e) ↔
      (ngrid = 0 ∨ spacing ≤ 0)) ∧
    ¬(ps_ngrid = 0 ∨ ps_grid_spacing im_width scale ≤ 0) ∧
    buildGridCheck ps_ngrid (ps_grid_spacing im_width scale) = .ok () := by
  have hsp : (1 : ℝ) ≤ ps_grid_spacing im_width scale := le_max_right _ _
  have hnd : ¬(ps_ngrid = 0 ∨ ps_grid_spacing im_width scale ≤ 0) := by
    push_neg
    exact ⟨by simp [ps_ngrid], by linarith⟩
  refine ⟨?_, hnd, ?_⟩
  · by_cases hdeg : ngrid = 0 ∨ spacing ≤ 0
    · simp [buildGridCheck, hdeg]
    · simp [buildGridCheck, hdeg]
  · simp only [buildGridCheck, if_neg hnd]

/-- The constructor list of _stack_ps_psfs never raises ValueError: its only
failure is the TypeError from the unexpected buff keyword. -/
theorem construct_ps_list_not_valueError (n : ℕ) (rng : RNGState)
    (im_width : ℕ) (scale : ℝ) (m : String) :
    construct_ps_list n rng im_width scale ≠ .error (.valueError m) := by
  cases n with
  | zero => simp [construct_ps_list]
  | succ k =>
    have hb : bindKeywordCall powerSpectrumPSF_param_names
        powerSpectrumPSF_required_names stack_ps_call_kwargs =
          .error (.typeError
            "__init__() got an unexpected keyword argument buff") := rfl
    simp [construct_ps_list, hb]

/-- The stacker never raises ValueError: with a stored list it succeeds, and
on first call its only failure is the TypeError of the constructor call. -/
theorem stack_ps_psfs_not_valueError (shearF : GridField → ℝ × ℝ → ℝ × ℝ)
    (magF : GridField → ℝ × ℝ → ℝ) (n : ℕ) (rng : RNGState) (im_width : ℕ)
    (scale : ℝ) (psfs : Option (List PowerSpectrumPSF)) (x y : ℝ)
    (m : String) :
    stack_ps_psfs shearF magF n rng im_width scale psfs x y ≠
      .error (.valueError m) := by
  cases psfs with
  | some ps => simp [stack_ps_psfs]
  | none =>
    simp only [stack_ps_psfs]
    cases hc : construct_ps_list n rng im_width scale with
    | error e =>
      cases e with
      | valueError s =>
          exact absurd hc (construct_ps_list_not_valueError n rng im_width scale s)
      | typeError s => simp
    | ok pair => simp

/-- The real-PSF stacker raises ValueError exactly on the first call (no
stored list yet) with fewer supplied file names than requested
realizations; with a stored list it always succeeds. -/
theorem stack_real_psfs_valueError_iff
    (chooseF : RNGState → List String → ℕ → List String × RNGState) (n : ℕ)
    (rng : RNGState) (filenames : List String)
    (psfs : Option (List RealPSF)) (x y : ℝ) :
    (∃ m, stack_real_psfs chooseF n rng filenames psfs x y =
        .error (.valueError m)) ↔
      (psfs = none ∧ filenames.length < n) := by
  cases psfs with
  | some ps => simp [stack_real_psfs]
  | none =>
    by_cases h : filenames.length < n
    · simp [stack_real_psfs, rng_choice_no_replace, h]
    · simp [stack_real_psfs, rng_choice_no_replace, h]

/-- C8 counterexample: with the valid psf_type real_psf, two requested
realizations and only one supplied file name, the first render raises
ValueError from the no-replacement draw, so a raised ValueError does not
imply an unrecognized psf_type. -/
theorem real_psf_valueError_cex :
    ("real_psf" = "gauss" ∨ "real_psf" = "ps" ∨ "real_psf" = "real_psf") ∧
    render_psf_image (fun _ _ => (0, 0)) (fun _ _ => 1)
        (fun r pop _ => (pop, r)) "real_psf" 2 ⟨fun _ => 0, 0⟩ 225 (1 / 4)
        none none ⟨some ["f0"]⟩ 112 112 =
      .error (.valueError
        "Cannot take a larger sample than population when replace is False") :=
  ⟨Or.inr (Or.inr rfl), rfl⟩

/-- C8 amended: PSF rendering raises ValueError exactly when psf_type is
outside the set gauss, ps, real_psf, or when psf_type is real_psf and the
first query (no cached realizations) supplies fewer file names than the
requested number of realizations; galaxy construction raises ValueError
exactly when gal_type is outside the set exp, ground_galsim_parametric; in
the unrecognized-name branches the result is the bare error, with no
profile produced. -/
theorem dispatch_valueError_characterization
    (shearF : GridField → ℝ × ℝ → ℝ × ℝ) (magF : GridField → ℝ × ℝ → ℝ)
    (chooseF : RNGState → List String → ℕ → List String × RNGState)
    (psf_type gal_type : String) (n : ℕ) (rng : RNGState) (im_width : ℕ)
    (scale : ℝ) (psfs : Option (List PowerSpectrumPSF))
    (realPsfs : Option (List RealPSF)) (kws : PsfKws) (x y : ℝ) :
    ((∃ m, render_psf_image shearF magF chooseF psf_type n rng im_width
        scale psfs realPsfs kws x y = .error (.valueError m)) ↔
      (¬(psf_type = "gauss" ∨ psf_type = "ps" ∨ psf_type = "real_psf") ∨
        (psf_type = "real_psf" ∧ realPsfs = none ∧
          ∃ fnames, kws.filenames = some fnames ∧ fnames.length < n))) ∧
    ((∃ m, get_band_gal gal_type = .error (.valueError m)) ↔
      ¬(gal_type = "exp" ∨ gal_type = "ground_galsim_parametric")) := by
  constructor
  · by_cases hg : psf_type = "gauss"
    · simp [render_psf_image, hg]
    · by_cases hp : psf_type = "ps"
      · subst hp
        constructor
        · rintro ⟨m, hm⟩
          exfalso
          cases hc : stack_ps_psfs shearF magF n rng im_width scale psfs x y with
          | error e =>
            cases e with
            | valueError s =>
                exact absurd hc (stack_ps_psfs_not_valueError shearF magF n
                  rng im_width scale psfs x y s)
            | typeError s => simp [render_psf_image, hc] at hm
          | ok trip => simp [render_psf_image, hc] at hm
        · rintro (hcon | ⟨hps, _⟩)
          · exact absurd (Or.inr (Or.inl rfl)) hcon
          · exact absurd hps (by decide)
      · by_cases hr : psf_type = "real_psf"
        · subst hr
          constructor
          · rintro ⟨m, hm⟩
            cases hf : kws.filenames with
            | none => simp [render_psf_image, hf] at hm
            | some fnames =>
              cases hc : stack_real_psfs chooseF n rng fnames realPsfs x y with
              | error e =>
                cases e with
                | valueError s =>
                    have hchar := (stack_real_psfs_valueError_iff chooseF n
                      rng fnames realPsfs x y).mp ⟨s, hc⟩
                    exact Or.inr ⟨rfl, hchar.1, fnames, rfl, hchar.2⟩
                | typeError s => simp [render_psf_image, hf, hc] at hm
              | ok trip => simp [render_psf_image, hf, hc] at hm
          · rintro (hcon | ⟨_, hnone, fnames, hf, hlen⟩)
            · exact absurd (Or.inr (Or.inr rfl)) hcon
            · subst hnone
              refine ⟨"Cannot take a larger sample than population when replace is False", ?_⟩
              simp [render_psf_image, hf, stack_real_psfs,
                rng_choice_no_replace, hlen]
        · simp [render_psf_image, hg, hp, hr]
  · by_cases he : gal_type = "exp"
    · simp [get_band_gal, he]
    · by_cases hgr : gal_type = "ground_galsim_parametric"
      · simp [get_band_gal, he, hgr]
      · simp [get_band_gal, he, hgr]

/-- C10: the resolved realization count, n_coadd_psf or n_coadd, equals
n_coadd when the argument is omitted (None) or 0, and equals the argument
itself exactly when it is nonzero; the resolved value is the range bound of
the realization list built by _stack_ps_psfs. -/
theorem n_coadd_psf_resolution (n k : ℕ) :
    pyOrNat none n = n ∧ pyOrNat (some 0) n = n ∧
    pyOrNat (some (k + 1)) n = k + 1 := by
  refine ⟨rfl, rfl, ?_⟩
  simp [pyOrNat]

end Mdetsims
